import Mathlib

/-!
Verification of the time-dilation formula repository.

The repository's computational content is the notebook
`notebooks/05_symbolic_derivations.ipynb`, which defines (via sympy, over
positive real symbols):

  gamma     = 1 / sqrt(1 - v^2 / c^2)
  t         = gamma * t0
  t_gravity = t0 * sqrt(1 - 2*G*M / (r * c^2))
  t_decay   = gamma * tau
  r_s       = 2*G*M / c^2

and records symbolic limits of `gamma` (as v → c) and `t_gravity`
(as r → r_s).  The specification restates these in normalized form
(velocity as a fraction of c, radius as a multiple of the Schwarzschild
radius).  We embed both and verify the stated properties.
-/

namespace TimeDilation

open Real

/-- Normalized Lorentz factor from the spec: `1 / sqrt(1 - v_fraction^2)`,
the notebook's `gamma` at `c = 1` (velocity expressed as a fraction of c). -/
noncomputable def lorentz_factor (v : ℝ) : ℝ := 1 / Real.sqrt (1 - v ^ 2)

/-- The notebook's `gamma = 1 / sp.sqrt(1 - (v**2 / c**2))`. -/
noncomputable def gamma (v c : ℝ) : ℝ := 1 / Real.sqrt (1 - v ^ 2 / c ^ 2)

/-- The notebook's dilated time `t = gamma * t0`. -/
noncomputable def dilated_time (t0 v c : ℝ) : ℝ := gamma v c * t0

/-- The notebook's `t_gravity = t0 * sp.sqrt(1 - (2 * G * M) / (r * c**2))`. -/
noncomputable def t_gravity (t0 G M c r : ℝ) : ℝ :=
  t0 * Real.sqrt (1 - 2 * G * M / (r * c ^ 2))

/-- The notebook's observed decay lifetime `t_decay = gamma * tau`. -/
noncomputable def t_decay (tau v c : ℝ) : ℝ := gamma v c * tau

/-- The notebook's Schwarzschild radius `r_s = 2 * G * M / c**2`. -/
noncomputable def schwarzschild_radius (G M c : ℝ) : ℝ := 2 * G * M / c ^ 2

/-- Normalized gravitational dilation factor from the spec:
`sqrt(1 - 1/radius_ratio)`, the radical of `t_gravity` at
`r = radius_ratio * r_s`. -/
noncomputable def gravitational_dilation (x : ℝ) : ℝ := Real.sqrt (1 - 1 / x)

/-- Normalized decay lifetime from the spec:
`proper_lifetime * lorentz_factor(v_fraction)`. -/
noncomputable def decay_lifetime (tau v : ℝ) : ℝ := tau * lorentz_factor v

/-- The notebook's `gamma` depends on velocity only through the fraction
`v / c`: at `v = f * c` with `c ≠ 0` it is the normalized Lorentz factor. -/
theorem gamma_eq_lorentz_factor (f c : ℝ) (hc : c ≠ 0) :
    gamma (f * c) c = lorentz_factor f := by
  unfold gamma lorentz_factor
  rw [mul_pow, mul_div_assoc, div_self (pow_ne_zero 2 hc), mul_one]

/-- For `0 ≤ v < 1` the radicand `1 - v^2` is strictly positive. -/
theorem radicand_pos {v : ℝ} (h0 : 0 ≤ v) (h1 : v < 1) : 0 < 1 - v ^ 2 := by
  nlinarith

/-- For `0 ≤ v < 1` the square root `sqrt (1 - v^2)` is strictly positive. -/
theorem sqrt_radicand_pos {v : ℝ} (h0 : 0 ≤ v) (h1 : v < 1) :
    0 < Real.sqrt (1 - v ^ 2) :=
  Real.sqrt_pos.mpr (radicand_pos h0 h1)

/-- On the domain, the Lorentz factor is strictly positive. -/
theorem lorentz_factor_pos {v : ℝ} (h0 : 0 ≤ v) (h1 : v < 1) :
    0 < lorentz_factor v :=
  one_div_pos.mpr (sqrt_radicand_pos h0 h1)

/-- On the domain, the Lorentz factor is at least one. -/
theorem one_le_lorentz_factor {v : ℝ} (h0 : 0 ≤ v) (h1 : v < 1) :
    1 ≤ lorentz_factor v := by
  unfold lorentz_factor
  rw [le_div_iff₀ (sqrt_radicand_pos h0 h1), one_mul]
  exact Real.sqrt_le_one.mpr (by nlinarith)

/-- The Lorentz factor is strictly increasing on `[0, 1)`. -/
theorem lorentz_factor_strictMonoOn {a b : ℝ} (ha : 0 ≤ a) (hab : a < b)
    (hb : b < 1) : lorentz_factor a < lorentz_factor b := by
  unfold lorentz_factor
  have hb0 : 0 ≤ b := ha.trans hab.le
  have hsb : 0 < Real.sqrt (1 - b ^ 2) := sqrt_radicand_pos hb0 hb
  have hlt : Real.sqrt (1 - b ^ 2) < Real.sqrt (1 - a ^ 2) :=
    Real.sqrt_lt_sqrt (le_of_lt (radicand_pos hb0 hb)) (by nlinarith)
  exact one_div_lt_one_div_of_lt hsb hlt

/-- The Lorentz factor at zero velocity is one. -/
theorem lorentz_factor_zero : lorentz_factor 0 = 1 := by
  unfold lorentz_factor
  norm_num

/-- C1: for every velocity fraction `v ∈ [0,1)` the Lorentz factor
`1 / sqrt(1 - v^2)` is at least 1, it is strictly increasing on `[0,1)`,
and it equals 1 at `v = 0`. -/
theorem claim_lorentz_factor_basic :
    (∀ v : ℝ, 0 ≤ v → v < 1 → 1 ≤ lorentz_factor v) ∧
    (∀ a b : ℝ, 0 ≤ a → a < b → b < 1 → lorentz_factor a < lorentz_factor b) ∧
    lorentz_factor 0 = 1 :=
  ⟨fun _ h0 h1 => one_le_lorentz_factor h0 h1,
   fun _ _ ha hab hb => lorentz_factor_strictMonoOn ha hab hb,
   lorentz_factor_zero⟩

/-- Witness for C1 at concrete inputs `v = 1/2` and the pair `0 < 1/2`. -/
theorem claim_lorentz_factor_basic_witness :
    1 ≤ lorentz_factor (1 / 2) ∧
    lorentz_factor 0 < lorentz_factor (1 / 2) ∧
    lorentz_factor 0 = 1 :=
  ⟨claim_lorentz_factor_basic.1 (1 / 2) (by norm_num) (by norm_num),
   claim_lorentz_factor_basic.2.1 0 (1 / 2) (by norm_num) (by norm_num)
     (by norm_num),
   claim_lorentz_factor_basic.2.2⟩

/-- For `1 < x` the gravitational radicand `1 - 1/x` is strictly positive. -/
theorem grav_radicand_pos {x : ℝ} (hx : 1 < x) : 0 < 1 - 1 / x := by
  have h0 : 0 < x := lt_trans one_pos hx
  have h1 : 1 / x < 1 := (div_lt_one h0).mpr hx
  linarith

/-- On the domain `(1, ∞)` the gravitational dilation factor is positive. -/
theorem gravitational_dilation_pos {x : ℝ} (hx : 1 < x) :
    0 < gravitational_dilation x :=
  Real.sqrt_pos.mpr (grav_radicand_pos hx)

/-- On the domain `(1, ∞)` the gravitational dilation factor is at most one. -/
theorem gravitational_dilation_le_one {x : ℝ} (hx : 1 < x) :
    gravitational_dilation x ≤ 1 := by
  have h0 : 0 < x := lt_trans one_pos hx
  have h1 : 0 < 1 / x := by positivity
  exact Real.sqrt_le_one.mpr (by linarith)

/-- The gravitational dilation factor is strictly increasing on `(1, ∞)`. -/
theorem gravitational_dilation_strictMonoOn {a b : ℝ} (ha : 1 < a)
    (hab : a < b) : gravitational_dilation a < gravitational_dilation b := by
  have ha0 : 0 < a := lt_trans one_pos ha
  have h : 1 / b < 1 / a := one_div_lt_one_div_of_lt ha0 hab
  exact Real.sqrt_lt_sqrt (le_of_lt (grav_radicand_pos ha)) (by linarith)

/-- The gravitational dilation factor tends to `1` as the radius ratio
grows without bound. -/
theorem tendsto_gravitational_dilation_atTop :
    Filter.Tendsto gravitational_dilation Filter.atTop (nhds 1) := by
  have h1 : Filter.Tendsto (fun x : ℝ => 1 - 1 / x) Filter.atTop (nhds 1) := by
    have h0 : Filter.Tendsto (fun x : ℝ => x⁻¹) Filter.atTop (nhds 0) :=
      tendsto_inv_atTop_zero
    have h2 : Filter.Tendsto (fun _ : ℝ => (1 : ℝ)) Filter.atTop (nhds 1) :=
      tendsto_const_nhds
    simpa [one_div] using h2.sub h0
  have h2 := (Real.continuous_sqrt.tendsto 1).comp h1
  unfold gravitational_dilation
  simpa [Function.comp_def, Real.sqrt_one, one_div] using h2

/-- The gravitational dilation factor tends to `0` as the radius ratio
approaches `1` from above. -/
theorem tendsto_gravitational_dilation_one :
    Filter.Tendsto gravitational_dilation (nhdsWithin 1 (Set.Ioi 1))
      (nhds 0) := by
  have hf : ContinuousAt (fun x : ℝ => 1 - 1 / x) 1 :=
    continuousAt_const.sub (continuousAt_const.div continuousAt_id one_ne_zero)
  have hc : ContinuousAt gravitational_dilation 1 :=
    Real.continuous_sqrt.continuousAt.comp hf
  have h : Filter.Tendsto gravitational_dilation (nhdsWithin 1 (Set.Ioi 1))
      (nhds (gravitational_dilation 1)) :=
    hc.tendsto.mono_left nhdsWithin_le_nhds
  have hval : gravitational_dilation 1 = 0 := by
    unfold gravitational_dilation
    norm_num
  rwa [hval] at h

/-- C2: for every radius ratio `x > 1` the gravitational dilation factor
`sqrt(1 - 1/x)` lies in `(0, 1]`, it is strictly increasing on `(1, ∞)`,
it tends to `1` as `x → ∞`, and it tends to `0` as `x → 1⁺`. -/
theorem claim_gravitational_dilation_basic :
    (∀ x : ℝ, 1 < x →
      0 < gravitational_dilation x ∧ gravitational_dilation x ≤ 1) ∧
    (∀ a b : ℝ, 1 < a → a < b →
      gravitational_dilation a < gravitational_dilation b) ∧
    Filter.Tendsto gravitational_dilation Filter.atTop (nhds 1) ∧
    Filter.Tendsto gravitational_dilation (nhdsWithin 1 (Set.Ioi 1))
      (nhds 0) :=
  ⟨fun _ hx => ⟨gravitational_dilation_pos hx, gravitational_dilation_le_one hx⟩,
   fun _ _ ha hab => gravitational_dilation_strictMonoOn ha hab,
   tendsto_gravitational_dilation_atTop,
   tendsto_gravitational_dilation_one⟩

/-- Witness for C2 at the concrete radius ratios `2` and `3`. -/
theorem claim_gravitational_dilation_basic_witness :
    (0 < gravitational_dilation 2 ∧ gravitational_dilation 2 ≤ 1) ∧
    gravitational_dilation 2 < gravitational_dilation 3 :=
  ⟨claim_gravitational_dilation_basic.1 2 (by norm_num),
   claim_gravitational_dilation_basic.2.1 2 3 (by norm_num) (by norm_num)⟩

/-- C3: the observed decay lifetime is the proper lifetime scaled by the
Lorentz factor: the notebook's `t_decay` at `v = f * c` is
`tau * lorentz_factor f`, the spec's `decay_lifetime`; at zero velocity it
is the proper lifetime; and on the domain it never shrinks the lifetime. -/
theorem claim_decay_lifetime :
    (∀ tau f c : ℝ, 0 < c → t_decay tau (f * c) c = decay_lifetime tau f) ∧
    (∀ tau v : ℝ, decay_lifetime tau v = tau * lorentz_factor v) ∧
    (∀ tau : ℝ, decay_lifetime tau 0 = tau) ∧
    (∀ tau v : ℝ, 0 < tau → 0 ≤ v → v < 1 → tau ≤ decay_lifetime tau v) := by
  refine ⟨fun tau f c hc => ?_, fun tau v => rfl, fun tau => ?_,
    fun tau v htau h0 h1 => ?_⟩
  · rw [t_decay, gamma_eq_lorentz_factor f c (ne_of_gt hc), decay_lifetime,
      mul_comm]
  · rw [decay_lifetime, lorentz_factor_zero, mul_one]
  · exact le_mul_of_one_le_right (le_of_lt htau) (one_le_lorentz_factor h0 h1)

/-- Witness for C3 at `tau = 2`, `f = 1/2`, `c = 3`. -/
theorem claim_decay_lifetime_witness :
    t_decay 2 (1 / 2 * 3) 3 = decay_lifetime 2 (1 / 2) ∧
    decay_lifetime 2 0 = 2 ∧
    (2 : ℝ) ≤ decay_lifetime 2 (1 / 2) :=
  ⟨claim_decay_lifetime.1 2 (1 / 2) 3 (by norm_num),
   claim_decay_lifetime.2.2.1 2,
   claim_decay_lifetime.2.2.2 2 (1 / 2) (by norm_num) (by norm_num)
     (by norm_num)⟩

/-- C9: at every finite radius ratio `x > 1` the gravitational dilation
factor is strictly below `1`; the value `1` is only approached in the
limit `x → ∞`, never attained. -/
theorem claim_gravitational_dilation_lt_one :
    (∀ x : ℝ, 1 < x → gravitational_dilation x < 1) ∧
    Filter.Tendsto gravitational_dilation Filter.atTop (nhds 1) := by
  refine ⟨fun x hx => ?_, tendsto_gravitational_dilation_atTop⟩
  have h0 : 0 < x := lt_trans one_pos hx
  have h1 : 0 < 1 / x := by positivity
  exact (Real.sqrt_lt' one_pos).mpr (by nlinarith)

/-- Witness for C9 at the concrete radius ratio `2`. -/
theorem claim_gravitational_dilation_lt_one_witness :
    gravitational_dilation 2 < 1 :=
  claim_gravitational_dilation_lt_one.1 2 (by norm_num)

/-- C10: the particle-decay expression `t_decay = gamma * tau` and the
velocity-dilation expression `t = gamma * t0` are the same function of
the proper-time argument; in normalized form `decay_lifetime x v` is the
dilated time of `x` at velocity fraction `v`. -/
theorem claim_decay_is_dilated_time :
    (∀ x v c : ℝ, t_decay x v c = dilated_time x v c) ∧
    (∀ x v : ℝ, decay_lifetime x v = dilated_time x v 1) := by
  refine ⟨fun x v c => rfl, fun x v => ?_⟩
  rw [decay_lifetime, dilated_time, mul_comm]
  congr 1
  unfold gamma lorentz_factor
  norm_num

/-- The Lorentz factor tends to infinity as the velocity fraction
approaches 1 from below. -/
theorem tendsto_lorentz_factor_atTop :
    Filter.Tendsto lorentz_factor (nhdsWithin 1 (Set.Iio 1))
      Filter.atTop := by
  have hrad : Filter.Tendsto (fun v : ℝ => 1 - v ^ 2)
      (nhdsWithin 1 (Set.Iio 1)) (nhdsWithin 0 (Set.Ioi 0)) := by
    rw [tendsto_nhdsWithin_iff]
    constructor
    · have hc : ContinuousAt (fun v : ℝ => 1 - v ^ 2) 1 := by fun_prop
      have h : Filter.Tendsto (fun v : ℝ => 1 - v ^ 2)
          (nhdsWithin 1 (Set.Iio 1)) (nhds (1 - 1 ^ 2)) :=
        hc.tendsto.mono_left nhdsWithin_le_nhds
      simpa using h
    · filter_upwards [Ioo_mem_nhdsWithin_Iio
        (by norm_num : (1 : ℝ) ∈ Set.Ioc 0 1)] with v hv
      have h1 : 0 < v := hv.1
      have h2 : v < 1 := hv.2
      have h3 : v ^ 2 < 1 := by nlinarith
      simp only [Set.mem_Ioi]
      linarith
  have hsqrt : Filter.Tendsto Real.sqrt (nhdsWithin 0 (Set.Ioi 0))
      (nhdsWithin 0 (Set.Ioi 0)) := by
    rw [tendsto_nhdsWithin_iff]
    constructor
    · have h : Filter.Tendsto Real.sqrt (nhdsWithin 0 (Set.Ioi 0))
          (nhds (Real.sqrt 0)) :=
        (Real.continuous_sqrt.tendsto 0).mono_left nhdsWithin_le_nhds
      simpa [Real.sqrt_zero] using h
    · filter_upwards [self_mem_nhdsWithin] with x hx
      exact Real.sqrt_pos.mpr hx
  have hinv : Filter.Tendsto (fun y : ℝ => 1 / y) (nhdsWithin 0 (Set.Ioi 0))
      Filter.atTop := by
    simpa [one_div] using tendsto_inv_zero_atTop (𝕜 := ℝ)
  have h := hinv.comp (hsqrt.comp hrad)
  unfold lorentz_factor
  simpa [Function.comp_def, one_div] using h

/-- C4: the Lorentz factor diverges to infinity as the velocity fraction
approaches 1 from below: it tends to infinity along `v → 1⁻`, and for
every bound `M` some `v ∈ [0,1)` exceeds it.  Moreover past the light
speed (`c < v`, the side from which the notebook's sympy limit is taken)
the radicand of `gamma` is negative, so no real limit exists there. -/
theorem claim_lorentz_limit_at_c :
    Filter.Tendsto lorentz_factor (nhdsWithin 1 (Set.Iio 1))
      Filter.atTop ∧
    (∀ M : ℝ, ∃ v : ℝ, 0 ≤ v ∧ v < 1 ∧ M < lorentz_factor v) ∧
    (∀ v c : ℝ, 0 < c → c < v → 1 - v ^ 2 / c ^ 2 < 0) := by
  refine ⟨tendsto_lorentz_factor_atTop, fun M => ?_, fun v c hc hv => ?_⟩
  · have hev : ∀ᶠ v in nhdsWithin 1 (Set.Iio 1), M < lorentz_factor v :=
      tendsto_lorentz_factor_atTop.eventually_gt_atTop M
    have hmem : ∀ᶠ v in nhdsWithin (1 : ℝ) (Set.Iio 1),
        v ∈ Set.Ioo (0 : ℝ) 1 :=
      Filter.eventually_of_mem
        (Ioo_mem_nhdsWithin_Iio (by norm_num : (1 : ℝ) ∈ Set.Ioc 0 1))
        (fun x hx => hx)
    obtain ⟨v, hv1, hv2⟩ := (hev.and hmem).exists
    exact ⟨v, hv2.1.le, hv2.2, hv1⟩
  · have h1 : c ^ 2 < v ^ 2 := by nlinarith
    have h2 : 1 < v ^ 2 / c ^ 2 := (one_lt_div (by positivity)).mpr h1
    linarith

/-- Witness for C4's third conjunct at `v = 2`, `c = 1`. -/
theorem claim_lorentz_limit_at_c_witness :
    (1 : ℝ) - 2 ^ 2 / 1 ^ 2 < 0 :=
  claim_lorentz_limit_at_c.2.2 2 1 one_pos (by norm_num)

/-- C5: the exact value of `lorentz_factor 0.99 = 1 / sqrt(1 - 0.99^2)`
lies strictly between 7.0888 and 7.0889. -/
theorem claim_lorentz_099 :
    7.0888 < lorentz_factor 0.99 ∧ lorentz_factor 0.99 < 7.0889 := by
  have hlf : lorentz_factor 0.99 = 1 / Real.sqrt 0.0199 := by
    unfold lorentz_factor
    norm_num
  have hu : Real.sqrt 0.0199 < 0.14106736 :=
    (Real.sqrt_lt' (by norm_num)).mpr (by norm_num)
  have hl : (0.14106735 : ℝ) < Real.sqrt 0.0199 :=
    (Real.lt_sqrt (by norm_num)).mpr (by norm_num)
  have hpos : 0 < Real.sqrt 0.0199 := Real.sqrt_pos.mpr (by norm_num)
  rw [hlf]
  constructor
  · calc (7.0888 : ℝ) < 1 / 0.14106736 := by norm_num
      _ < 1 / Real.sqrt 0.0199 := one_div_lt_one_div_of_lt hpos hu
  · calc 1 / Real.sqrt 0.0199 < 1 / 0.14106735 :=
        one_div_lt_one_div_of_lt (by norm_num) hl
      _ < 7.0889 := by norm_num

/-- C6: evaluating the notebook's Schwarzschild expression at
`r = radius_ratio * r_s` yields the spec's normalized dilation factor:
`t_gravity` at that radius is `t0 * gravitational_dilation radius_ratio`
for all positive `G`, `M`, `c` and every `radius_ratio > 1`. -/
theorem claim_schwarzschild_normalized (t0 ratio G M c : ℝ) (hr : 1 < ratio)
    (hG : 0 < G) (hM : 0 < M) (hc : 0 < c) :
    t_gravity t0 G M c (ratio * schwarzschild_radius G M c) =
      t0 * gravitational_dilation ratio := by
  unfold t_gravity schwarzschild_radius gravitational_dilation
  congr 1
  congr 1
  have hrne : ratio ≠ 0 := ne_of_gt (lt_trans one_pos hr)
  field_simp
  ring

/-- Witness for C6 at `t0 = 1`, `ratio = 2`, `G = M = c = 1`. -/
theorem claim_schwarzschild_normalized_witness :
    t_gravity 1 1 1 1 (2 * schwarzschild_radius 1 1 1) =
      1 * gravitational_dilation 2 :=
  claim_schwarzschild_normalized 1 2 1 1 1 (by norm_num) one_pos one_pos
    one_pos

/-- Error raised by the Parameter Sweep Generator on malformed bounds. -/
inductive SweepError
  | invalidRange

/-- Error raised by a formula evaluator on out-of-domain input. -/
inductive DomainError
  | outOfDomain

open Classical in
/-- Modelled from the spec: the repository's sweep/pipeline code
(`scripts/`, `src/dilation/` per the README) is not among the sources;
per the spec the Parameter Sweep Generator, given `(start, stop, count)`,
fails with an InvalidRangeError when `count < 1` or `start ≥ stop` and
otherwise yields `count` evenly spaced values in `[start, stop)`. -/
noncomputable def sweep (start stop : ℝ) (count : ℕ) :
    Except SweepError (List ℝ) :=
  if count < 1 ∨ stop ≤ start then Except.error SweepError.invalidRange
  else Except.ok ((List.range count).map
    (fun i : ℕ => start + (i : ℝ) * ((stop - start) / count)))

open Classical in
/-- Modelled from the spec: guarded Lorentz-factor evaluator, total on the
domain `0 ≤ v < 1` and failing with a DomainError outside it. -/
noncomputable def lorentz_factor_checked (v : ℝ) : Except DomainError ℝ :=
  if 0 ≤ v ∧ v < 1 then Except.ok (lorentz_factor v)
  else Except.error DomainError.outOfDomain

open Classical in
/-- Modelled from the spec: guarded gravitational-dilation evaluator,
total on the domain `1 < x` and failing with a DomainError outside it. -/
noncomputable def gravitational_dilation_checked (x : ℝ) :
    Except DomainError ℝ :=
  if 1 < x then Except.ok (gravitational_dilation x)
  else Except.error DomainError.outOfDomain

open Classical in
/-- Modelled from the spec: guarded decay-lifetime evaluator, total for
positive proper lifetime and velocity fraction in `[0,1)`, failing with a
DomainError outside that domain. -/
noncomputable def decay_lifetime_checked (tau v : ℝ) :
    Except DomainError ℝ :=
  if 0 < tau ∧ 0 ≤ v ∧ v < 1 then Except.ok (decay_lifetime tau v)
  else Except.error DomainError.outOfDomain

/-- C7: the sweep generator fails with an InvalidRangeError exactly when
`count < 1` or `start ≥ stop`; otherwise it returns an ordered (strictly
increasing) list of exactly `count` evenly spaced values, each of which
lies in `[start, stop)`. -/
theorem claim_sweep_contract (start stop : ℝ) (count : ℕ) :
    (count < 1 ∨ stop ≤ start →
      sweep start stop count = Except.error SweepError.invalidRange) ∧
    (1 ≤ count → start < stop →
      ∃ l : List ℝ, sweep start stop count = Except.ok l ∧
        l.length = count ∧ l.Pairwise (· < ·) ∧
        ∀ x ∈ l, start ≤ x ∧ x < stop) := by
  constructor
  · intro h
    rw [sweep, if_pos h]
  · intro h1 h2
    have hcond : ¬(count < 1 ∨ stop ≤ start) := by
      push_neg
      exact ⟨h1, h2⟩
    have hcount : (0 : ℝ) < count := by
      exact_mod_cast Nat.lt_of_lt_of_le Nat.zero_lt_one h1
    have hstep : 0 < (stop - start) / count := div_pos (by linarith) hcount
    refine ⟨(List.range count).map
      (fun i : ℕ => start + (i : ℝ) * ((stop - start) / count)),
      by rw [sweep, if_neg hcond], by simp, ?_, ?_⟩
    · refine List.Pairwise.map
        (fun i : ℕ => start + (i : ℝ) * ((stop - start) / count))
        (fun a b hab => ?_) (List.pairwise_lt_range count)
      have hcast : (a : ℝ) < b := Nat.cast_lt.mpr hab
      nlinarith
    · intro x hx
      simp only [List.mem_map, List.mem_range] at hx
      obtain ⟨i, hi, rfl⟩ := hx
      constructor
      · have h0 : (0 : ℝ) ≤ (i : ℝ) * ((stop - start) / count) :=
          mul_nonneg (Nat.cast_nonneg i) hstep.le
        linarith
      · have hic : (i : ℝ) < (count : ℝ) := by exact_mod_cast hi
        have hlt : (i : ℝ) * ((stop - start) / count) <
            (count : ℝ) * ((stop - start) / count) :=
          mul_lt_mul_of_pos_right hic hstep
        have heq : (count : ℝ) * ((stop - start) / count) = stop - start := by
          field_simp
        linarith

/-- Witness for C7: malformed bounds `(1, 0, 5)` fail, and `(0, 1, 2)`
produces a valid two-element sweep. -/
theorem claim_sweep_contract_witness :
    sweep 1 0 5 = Except.error SweepError.invalidRange ∧
    (∃ l : List ℝ, sweep 0 1 2 = Except.ok l ∧ l.length = 2 ∧
      l.Pairwise (· < ·) ∧ ∀ x ∈ l, (0 : ℝ) ≤ x ∧ x < 1) :=
  ⟨(claim_sweep_contract 1 0 5).1 (Or.inr (by norm_num)),
   (claim_sweep_contract 0 1 2).2 (by norm_num) (by norm_num)⟩

/-- C8: each formula evaluator returns the formula's value on every input
of its stated domain and fails with a DomainError on every input outside
it (`v < 0` or `v ≥ 1` for the Lorentz factor and decay lifetime,
`radius_ratio ≤ 1` for the gravitational factor). -/
theorem claim_evaluator_domains :
    (∀ v : ℝ,
      (0 ≤ v ∧ v < 1 →
        lorentz_factor_checked v = Except.ok (lorentz_factor v)) ∧
      (¬(0 ≤ v ∧ v < 1) →
        lorentz_factor_checked v = Except.error DomainError.outOfDomain)) ∧
    (∀ x : ℝ,
      (1 < x → gravitational_dilation_checked x =
        Except.ok (gravitational_dilation x)) ∧
      (x ≤ 1 → gravitational_dilation_checked x =
        Except.error DomainError.outOfDomain)) ∧
    (∀ tau v : ℝ,
      (0 < tau ∧ 0 ≤ v ∧ v < 1 →
        decay_lifetime_checked tau v = Except.ok (decay_lifetime tau v)) ∧
      (¬(0 < tau ∧ 0 ≤ v ∧ v < 1) →
        decay_lifetime_checked tau v =
          Except.error DomainError.outOfDomain)) := by
  refine ⟨fun v => ⟨fun h => ?_, fun h => ?_⟩,
    fun x => ⟨fun h => ?_, fun h => ?_⟩,
    fun tau v => ⟨fun h => ?_, fun h => ?_⟩⟩
  · rw [lorentz_factor_checked, if_pos h]
  · rw [lorentz_factor_checked, if_neg h]
  · rw [gravitational_dilation_checked, if_pos h]
  · rw [gravitational_dilation_checked, if_neg (not_lt.mpr h)]
  · rw [decay_lifetime_checked, if_pos h]
  · rw [decay_lifetime_checked, if_neg h]

/-- Witness for C8: each evaluator succeeds on a concrete in-domain input
and fails on a concrete out-of-domain input. -/
theorem claim_evaluator_domains_witness :
    lorentz_factor_checked (1 / 2) = Except.ok (lorentz_factor (1 / 2)) ∧
    lorentz_factor_checked 1 = Except.error DomainError.outOfDomain ∧
    gravitational_dilation_checked 2 =
      Except.ok (gravitational_dilation 2) ∧
    gravitational_dilation_checked 1 =
      Except.error DomainError.outOfDomain ∧
    decay_lifetime_checked 2 (1 / 2) =
      Except.ok (decay_lifetime 2 (1 / 2)) ∧
    decay_lifetime_checked 2 1 = Except.error DomainError.outOfDomain :=
  ⟨(claim_evaluator_domains.1 (1 / 2)).1 (by norm_num),
   (claim_evaluator_domains.1 1).2 (by norm_num),
   (claim_evaluator_domains.2.1 2).1 (by norm_num),
   (claim_evaluator_domains.2.1 1).2 le_rfl,
   (claim_evaluator_domains.2.2 2 (1 / 2)).1 (by norm_num),
   (claim_evaluator_domains.2.2 2 1).2 (by norm_num)⟩

end TimeDilation
